import Mathlib

/-!
# Verification of `tryState` (src/src/index.ts)

A shallow embedding of the result-normalization helper `tryState`.
The TypeScript function wraps one asynchronous producer invocation, and
converts its outcome into a tuple `[value, error, metadata]`:

* on fulfilment it returns `[result, null, {executionTimeMs, timestamp}]`;
* on rejection/throw it returns `[initialValue, errorDetails, metadata]`,
  where `errorDetails` is the object
  `{ message, stack, function, location, ...additionalContext }`.

The embedding models JavaScript dynamic values with the inductive `JSVal`,
objects as key/value lists in insertion order (`objLookup` returns the
last binding of a key, matching spread-overwrite semantics), and the two
`Date.now()` reads as explicit integer instants `start`/`stop`. The
producer itself is abstracted by its single observable outcome.

The caught condition is modelled at two levels. `ThrownValue` covers every
caught value on which property access succeeds — an `Error` (string
`message`/`stack`) as well as thrown primitives and plain objects, where a
missing property simply reads as `undefined` (`none`). `CaughtValue` adds
the remaining case, a nullish caught value (`null` or `undefined`), on
which the catch block's own property access `(error as Error).stack`
(index.ts line 77) throws a `TypeError`. `tryState` renders the behavior
on `ThrownValue` outcomes; `tryStateJS` is the full semantics in an
exception monad, in which that `TypeError` escapes the catch block and
rejects `tryState`'s promise.
-/

namespace TryState

/-- A JavaScript runtime value, as far as the claims need to distinguish
values: strings, numbers, booleans, `null` and `undefined`. -/
inductive JSVal where
  | str : String → JSVal
  | num : Int → JSVal
  | boolean : Bool → JSVal
  | null : JSVal
  | undefined : JSVal
deriving DecidableEq, Repr

/-- The caught condition `error`, reduced to the two properties the code
reads: `(error as Error).message` and `(error as Error).stack`. `none`
models the property being `undefined` (e.g. a thrown non-`Error` value). -/
structure ThrownValue where
  message : Option String
  stack : Option String
deriving DecidableEq, Repr

/-- The single observable outcome of awaiting the producer `fn()`:
it either fulfils with a value or rejects/throws with a condition. -/
inductive Outcome (T : Type) where
  | success : T → Outcome T
  | failure : ThrownValue → Outcome T

/-- A JavaScript object as an insertion-ordered key/value list.
`{ a, b, ...c }` is modelled by list append. -/
def JSObject : Type := List (String × JSVal)

/-- Property read on a `JSObject`: the LAST binding of the key wins,
matching object-literal / spread overwrite semantics. -/
def objLookup (o : List (String × JSVal)) (k : String) : Option JSVal :=
  (o.reverse.find? (fun p => p.1 == k)).map (fun p => p.2)

/-- Whether an object carries a binding for key `k`. -/
def hasKey (o : List (String × JSVal)) (k : String) : Bool :=
  o.any (fun p => p.1 == k)

/-- The whitespace class of JavaScript (`\s`, `String.prototype.trim`),
restricted to the characters that can realistically occur here: space,
tab, line feed, carriage return, vertical tab, form feed, NBSP. -/
def isJsSpace (c : Char) : Bool :=
  c = ' ' || c = '\t' || c = '\n' || c = '\r' || c = '\x0b' || c = '\x0c' || c = '\xa0'

/-- `String.prototype.trim`: drop leading and trailing whitespace. -/
def jsTrim (s : String) : String :=
  String.mk (((s.toList.dropWhile isJsSpace).reverse.dropWhile isJsSpace).reverse)

/-- The sentinel the code substitutes when no usable second stack line
exists: `'Localização não encontrada'` (Portuguese for "location not
found"). -/
def locationSentinel : String := "Localização não encontrada"

/-- `String.prototype.split(sep)` for a one-character separator, on the
character list: splitting the empty string yields `[[]]`, and every
separator occurrence starts a new (possibly empty) chunk, exactly as in
JavaScript. -/
def splitOnChar (sep : Char) : List Char → List (List Char)
  | [] => [[]]
  | c :: rest =>
    if c = sep then [] :: splitOnChar sep rest
    else
      match splitOnChar sep rest with
      | [] => [[c]]
      | h :: t => (c :: h) :: t

/-- `stack.split('\n')`. -/
def splitLines (s : String) : List String :=
  (splitOnChar '\n' s.toList).map String.mk

/-- `stackLines[1]?.trim() || 'Localização não encontrada'`:
the second line of the trace split at `'\n'`, trimmed; the sentinel when
that line is missing or trims to the empty string (which is falsy). -/
def relevantLineOf (stack : String) : String :=
  match (splitLines stack)[1]? with
  | some l => if jsTrim l = "" then locationSentinel else jsTrim l
  | none => locationSentinel

/-- One attempted match of the regex `/at (\S+)/` at the current position:
the literal characters `'a'`, `'t'`, `' '` followed by a maximal nonempty
run of non-whitespace characters (the capture group `(\S+)`). -/
def atMatchHere (l : List Char) : Option (List Char) :=
  match l with
  | 'a' :: 't' :: ' ' :: rest =>
    if (rest.takeWhile (fun d => !(isJsSpace d))).isEmpty then none
    else some (rest.takeWhile (fun d => !(isJsSpace d)))
  | _ => none

/-- Regex search `relevantLine.match(/at (\S+)/)`: try the pattern at each
position left to right, returning the first capture. -/
def scanAt : List Char → Option (List Char)
  | [] => none
  | c :: rest =>
    match atMatchHere (c :: rest) with
    | some tok => some tok
    | none => scanAt rest

/-- `functionNameMatch ? functionNameMatch[1] : 'unknown'`. -/
def functionNameOf (frame : String) : String :=
  match scanAt frame.toList with
  | some tok => String.mk tok
  | none => "unknown"

/-- The `errorDetails` object built in the catch block:
`{ message, stack, function, location, ...additionalContext }`.
`stack` is `(error as Error).stack || ''` (so `''` when the property is
`undefined` or the empty string, both falsy). -/
def buildErrorDetails (e : ThrownValue) (ctx : List (String × JSVal)) :
    List (String × JSVal) :=
  let stack := e.stack.getD ""
  let relevantLine := relevantLineOf stack
  let functionName := functionNameOf relevantLine
  [("message", match e.message with
               | some m => JSVal.str m
               | none => JSVal.undefined),
   ("stack", JSVal.str stack),
   ("function", JSVal.str functionName),
   ("location", JSVal.str relevantLine)] ++ ctx

/-- The optional third tuple element
`{ executionTimeMs: number; timestamp: string }`. -/
structure Metadata where
  executionTimeMs : Int
  timestamp : String
deriving DecidableEq, Repr

/-- `tryState` itself. `o` is the awaited producer outcome, `initialValue`
the fallback, `additionalContext` the optional context object (`none` when
the argument is omitted), `start`/`stop` the two `Date.now()` readings and
`timestamp` the captured ISO string. Exactly one of the two branches (the
`try` body after the `await`, or the `catch` block) runs. -/
def tryState {T : Type} (o : Outcome T) (initialValue : T)
    (additionalContext : Option (List (String × JSVal)))
    (start stop : Int) (timestamp : String) :
    T × Option (List (String × JSVal)) × Option Metadata :=
  match o with
  | Outcome.success v =>
      (v, none, some ⟨stop - start, timestamp⟩)
  | Outcome.failure e =>
      (initialValue,
       some (buildErrorDetails e (additionalContext.getD [])),
       some ⟨stop - start, timestamp⟩)

/-- An error raised by the normalizer's own code rather than the
producer: the `TypeError` a property access on a nullish value throws. -/
inductive JsError where
  | typeError : JsError
deriving DecidableEq, Repr

/-- What `catch (error)` can bind in full generality: a nullish value
(`null` or `undefined`), on which ANY property access throws a
`TypeError`, or any other value, whose `message`/`stack` property reads
succeed — possibly yielding `undefined`, as for thrown primitives or
plain objects, which is what `ThrownValue` records. -/
inductive CaughtValue where
  | nullish : CaughtValue
  | value : ThrownValue → CaughtValue
deriving DecidableEq, Repr

/-- The awaited producer's outcome in the full model, where the rejection
value may also be nullish. -/
inductive OutcomeJS (T : Type) where
  | success : T → OutcomeJS T
  | failure : CaughtValue → OutcomeJS T

/-- `(error as Error).stack` (index.ts line 77): a plain property access,
which throws a `TypeError` when `error` is nullish. -/
def propStack : CaughtValue → Except JsError (Option String)
  | CaughtValue.nullish => Except.error JsError.typeError
  | CaughtValue.value e => Except.ok e.stack

/-- `(error as Error).message` (index.ts line 84): likewise a plain
property access. -/
def propMessage : CaughtValue → Except JsError (Option String)
  | CaughtValue.nullish => Except.error JsError.typeError
  | CaughtValue.value e => Except.ok e.message

/-- The body of the catch block as it executes: read the `stack` property
(this is the first property access and the crash point for a nullish
caught value), default it to `''`, parse the trace, read the `message`
property, and build the `errorDetails` object. An exception here is NOT
caught by anything and escapes to `tryState`'s caller. -/
def catchBlock (err : CaughtValue) (ctx : List (String × JSVal)) :
    Except JsError (List (String × JSVal)) := do
  let stackProp ← propStack err
  let stack := stackProp.getD ""
  let relevantLine := relevantLineOf stack
  let functionName := functionNameOf relevantLine
  let msgProp ← propMessage err
  pure ([("message", match msgProp with
                     | some m => JSVal.str m
                     | none => JSVal.undefined),
         ("stack", JSVal.str stack),
         ("function", JSVal.str functionName),
         ("location", JSVal.str relevantLine)] ++ ctx)

/-- The full semantics of `tryState` in an exception monad: the
`try`/`catch` surrounds only the `await fn()`, so a producer rejection
runs `catchBlock`, and whatever `catchBlock` itself throws rejects the
promise `tryState` returns. -/
def tryStateJS {T : Type} (o : OutcomeJS T) (initialValue : T)
    (additionalContext : Option (List (String × JSVal)))
    (start stop : Int) (timestamp : String) :
    Except JsError (T × Option (List (String × JSVal)) × Option Metadata) :=
  match o with
  | OutcomeJS.success v =>
      Except.ok (v, none, some ⟨stop - start, timestamp⟩)
  | OutcomeJS.failure err =>
      match catchBlock err (additionalContext.getD []) with
      | Except.ok ed =>
          Except.ok (initialValue, some ed, some ⟨stop - start, timestamp⟩)
      | Except.error te => Except.error te

/-- The error slot of a result tuple, as an object (`[]` when `null`). -/
def errSlot {T : Type}
    (r : T × Option (List (String × JSVal)) × Option Metadata) :
    List (String × JSVal) :=
  (r.2.1).getD []

/-! ## Helper lemmas about object lookup -/

theorem objLookup_append (a b : List (String × JSVal)) (k : String) :
    objLookup (a ++ b) k = (objLookup b k).or (objLookup a k) := by
  unfold objLookup
  rw [List.reverse_append, List.find?_append]
  cases List.find? (fun p => p.1 == k) b.reverse <;> simp

theorem objLookup_eq_none_of_hasKey (o : List (String × JSVal)) (k : String)
    (h : hasKey o k = false) : objLookup o k = none := by
  unfold objLookup
  have h2 : List.find? (fun p => p.1 == k) o.reverse = none := by
    rw [List.find?_eq_none]
    intro x hx
    have hx2 : x ∈ o := List.mem_reverse.mp hx
    intro hbeq
    have : hasKey o k = true := by
      unfold hasKey
      exact List.any_eq_true.mpr ⟨x, hx2, hbeq⟩
    rw [h] at this
    exact Bool.false_ne_true this
  rw [h2]
  rfl

theorem errSlot_failure {T : Type} (e : ThrownValue) (fb : T)
    (ctx : Option (List (String × JSVal))) (s p : Int) (ts : String) :
    errSlot (tryState (Outcome.failure e) fb ctx s p ts) =
      buildErrorDetails e (ctx.getD []) := rfl

theorem buildErrorDetails_lookup_message (e : ThrownValue)
    (ctx : List (String × JSVal)) (h : hasKey ctx "message" = false) :
    objLookup (buildErrorDetails e ctx) "message" =
      some (match e.message with
            | some m => JSVal.str m
            | none => JSVal.undefined) := by
  unfold buildErrorDetails
  rw [objLookup_append, objLookup_eq_none_of_hasKey ctx _ h]
  rfl

theorem buildErrorDetails_lookup_stack (e : ThrownValue)
    (ctx : List (String × JSVal)) (h : hasKey ctx "stack" = false) :
    objLookup (buildErrorDetails e ctx) "stack" =
      some (JSVal.str (e.stack.getD "")) := by
  unfold buildErrorDetails
  rw [objLookup_append, objLookup_eq_none_of_hasKey ctx _ h]
  rfl

theorem buildErrorDetails_lookup_function (e : ThrownValue)
    (ctx : List (String × JSVal)) (h : hasKey ctx "function" = false) :
    objLookup (buildErrorDetails e ctx) "function" =
      some (JSVal.str (functionNameOf (relevantLineOf (e.stack.getD "")))) := by
  unfold buildErrorDetails
  rw [objLookup_append, objLookup_eq_none_of_hasKey ctx _ h]
  rfl

theorem buildErrorDetails_lookup_location (e : ThrownValue)
    (ctx : List (String × JSVal)) (h : hasKey ctx "location" = false) :
    objLookup (buildErrorDetails e ctx) "location" =
      some (JSVal.str (relevantLineOf (e.stack.getD ""))) := by
  unfold buildErrorDetails
  rw [objLookup_append, objLookup_eq_none_of_hasKey ctx _ h]
  rfl

/-! ## Helper lemmas about the regex capture -/

theorem all_takeWhile_self (q : Char → Bool) (l : List Char) :
    (l.takeWhile q).all q = true := by
  induction l with
  | nil => rfl
  | cons c rest ih =>
    rw [List.takeWhile_cons]
    by_cases h : q c = true
    · simp [h, ih]
    · simp [h]

theorem atMatchHere_some (l tok : List Char)
    (h : atMatchHere l = some tok) :
    tok ≠ [] ∧ tok.all (fun d => !(isJsSpace d)) = true := by
  unfold atMatchHere at h
  split at h
  · split at h
    · exact absurd h (by simp)
    · next hne =>
      obtain rfl : _ = tok := Option.some.inj h
      refine ⟨?_, all_takeWhile_self _ _⟩
      intro hcontr
      rw [hcontr] at hne
      exact hne rfl
  · exact absurd h (by simp)

theorem scanAt_some (l tok : List Char) (h : scanAt l = some tok) :
    tok ≠ [] ∧ tok.all (fun d => !(isJsSpace d)) = true := by
  induction l with
  | nil => exact absurd h (by simp [scanAt])
  | cons c rest ih =>
    unfold scanAt at h
    cases hm : atMatchHere (c :: rest) with
    | some t =>
      rw [hm] at h
      obtain rfl : t = tok := Option.some.inj h
      exact atMatchHere_some _ _ hm
    | none =>
      rw [hm] at h
      exact ih h

/-! ## Claim theorems -/

/-- C1: the claim — `tryState` itself resolves for EVERY thrown or
rejected value and never rejects or throws to its caller — is the spec's
core contract, but the code breaks it on a nullish rejection: when the
producer rejects with `null` (or `undefined`), the catch block's property
access `(error as Error).stack` throws a `TypeError`, which nothing
catches, so `tryState`'s promise rejects. Any non-nullish rejection —
even a valueless one with no `message` and no `stack`, where both
sentinels fire — still resolves to the normal failure triple, so the
failure is specific to the unguarded property access. -/
theorem tryState_rejects_on_nullish :
    tryStateJS (OutcomeJS.failure CaughtValue.nullish) (0 : Int) none 0 1 "t" =
      Except.error JsError.typeError ∧
    tryStateJS (OutcomeJS.failure (CaughtValue.value ⟨none, none⟩)) (0 : Int) none 0 1 "t" =
      Except.ok (tryState (Outcome.failure ⟨none, none⟩) (0 : Int) none 0 1 "t") :=
  ⟨rfl, rfl⟩

/-- C3: for every producer that resolves to `v`, `tryState` returns
`[v, null, metadata]`: the error slot is `null`, metadata is present, and
(the two clock readings being in order) `metadata.executionTimeMs ≥ 0`. -/
theorem tryState_success_shape {T : Type} (v fb : T)
    (ctx : Option (List (String × JSVal))) (s p : Int) (ts : String)
    (h : s ≤ p) :
    (tryState (Outcome.success v) fb ctx s p ts).1 = v ∧
    (tryState (Outcome.success v) fb ctx s p ts).2.1 = none ∧
    (tryState (Outcome.success v) fb ctx s p ts).2.2 = some ⟨p - s, ts⟩ ∧
    ∀ md, (tryState (Outcome.success v) fb ctx s p ts).2.2 = some md →
      0 ≤ md.executionTimeMs := by
  refine ⟨rfl, rfl, rfl, ?_⟩
  intro md hmd
  have : md = ⟨p - s, ts⟩ := by
    have h2 : some (Metadata.mk (p - s) ts) = some md := by
      rw [← hmd]
      rfl
    exact (Option.some.injEq _ _ ▸ h2).symm
  subst this
  simpa using h

/-- C3 witness at `v = 5`, `start = 2`, `stop = 7`. -/
theorem tryState_success_shape_witness :
    (2 : Int) ≤ 7 ∧
    (tryState (Outcome.success (5 : Int)) 0 none 2 7 "ts").1 = 5 ∧
    (tryState (Outcome.success (5 : Int)) 0 none 2 7 "ts").2.1 = none ∧
    (tryState (Outcome.success (5 : Int)) 0 none 2 7 "ts").2.2 = some ⟨5, "ts"⟩ ∧
    0 ≤ (Metadata.mk 5 "ts").executionTimeMs :=
  ⟨by decide,
   (tryState_success_shape 5 0 none 2 7 "ts" (by decide)).1,
   (tryState_success_shape 5 0 none 2 7 "ts" (by decide)).2.1,
   (tryState_success_shape 5 0 none 2 7 "ts" (by decide)).2.2.1,
   (tryState_success_shape 5 0 none 2 7 "ts" (by decide)).2.2.2 ⟨5, "ts"⟩ (by decide)⟩

/-- C6: on the failure path every key/value pair of the supplied context
is readable verbatim from the returned `ErrorDetails`, and because the
context is spread after the fixed fields its binding wins on any name
collision (`k` may also be `message`, `stack`, `function` or
`location`). -/
theorem tryState_context_merge {T : Type} (e : ThrownValue) (fb : T)
    (ctx : List (String × JSVal)) (s p : Int) (ts : String)
    (k : String) (v : JSVal)
    (h : objLookup ctx k = some v) :
    objLookup (errSlot (tryState (Outcome.failure e) fb (some ctx) s p ts)) k =
      some v := by
  rw [errSlot_failure]
  show objLookup (buildErrorDetails e ctx) k = some v
  unfold buildErrorDetails
  rw [objLookup_append, h]
  rfl

/-- C6 witness: context `{taskId: 42}` yields `err.taskId == 42`. -/
theorem tryState_context_merge_witness :
    objLookup [("taskId", JSVal.num 42)] "taskId" = some (JSVal.num 42) ∧
    objLookup (errSlot (tryState (Outcome.failure ⟨some "boom", none⟩) (0 : Int)
        (some [("taskId", JSVal.num 42)]) 0 1 "t")) "taskId" =
      some (JSVal.num 42) :=
  ⟨by decide,
   tryState_context_merge ⟨some "boom", none⟩ 0 [("taskId", JSVal.num 42)] 0 1 "t"
     "taskId" (JSVal.num 42) (by decide)⟩

/-- C7: the `additionalContext` argument influences only the failure
path — two runs of a successfully resolving producer that differ only in
the context argument (one may be absent) return identical triples. -/
theorem tryState_success_ignores_context {T : Type} (v fb : T)
    (ctx1 ctx2 : Option (List (String × JSVal))) (s p : Int) (ts : String) :
    tryState (Outcome.success v) fb ctx1 s p ts =
      tryState (Outcome.success v) fb ctx2 s p ts := rfl

/-- C2 counterexample: the claim quantifies over EVERY (possibly absent)
context, but a context key named `message` overwrites the diagnostic
field (the spread comes after the fixed fields). With message `"boom"`
and context `{message: "hijacked"}`, `err.message` is `"hijacked"`,
not `"boom"`. -/
theorem failure_message_context_collision :
    objLookup (errSlot (tryState (Outcome.failure ⟨some "boom", none⟩) (0 : Int)
        (some [("message", JSVal.str "hijacked")]) 0 1 "t")) "message" =
      some (JSVal.str "hijacked") ∧
    some (JSVal.str "hijacked") ≠ some (JSVal.str "boom") :=
  ⟨by decide, by decide⟩

/-- C2 (amended): for every producer that fails with message `m`, every
fallback and every context, `tryState` returns `[fallback, err, metadata]`
with the first element the exact fallback passed in; and whenever the
context does not itself bind the key `message`, `err.message` equals
`m`. -/
theorem tryState_failure_shape {T : Type} (m : String) (stk : Option String)
    (fb : T) (ctx : Option (List (String × JSVal))) (s p : Int) (ts : String) :
    (tryState (Outcome.failure ⟨some m, stk⟩) fb ctx s p ts).1 = fb ∧
    (tryState (Outcome.failure ⟨some m, stk⟩) fb ctx s p ts).2.1.isSome = true ∧
    (tryState (Outcome.failure ⟨some m, stk⟩) fb ctx s p ts).2.2.isSome = true ∧
    (hasKey (ctx.getD []) "message" = false →
      objLookup (errSlot (tryState (Outcome.failure ⟨some m, stk⟩) fb ctx s p ts))
          "message" = some (JSVal.str m)) := by
  refine ⟨rfl, rfl, rfl, ?_⟩
  intro h
  rw [errSlot_failure]
  rw [buildErrorDetails_lookup_message ⟨some m, stk⟩ (ctx.getD []) h]

/-- C2 witness at message `"boom"`, fallback `7`, no context. -/
theorem tryState_failure_shape_witness :
    hasKey ((none : Option (List (String × JSVal))).getD []) "message" = false ∧
    (tryState (Outcome.failure ⟨some "boom", none⟩) (7 : Int) none 0 2 "ts").1 = 7 ∧
    (tryState (Outcome.failure ⟨some "boom", none⟩) (7 : Int) none 0 2 "ts").2.1.isSome = true ∧
    (tryState (Outcome.failure ⟨some "boom", none⟩) (7 : Int) none 0 2 "ts").2.2.isSome = true ∧
    objLookup (errSlot (tryState (Outcome.failure ⟨some "boom", none⟩) (7 : Int) none 0 2 "ts"))
        "message" = some (JSVal.str "boom") :=
  ⟨by decide,
   (tryState_failure_shape "boom" none 7 none 0 2 "ts").1,
   (tryState_failure_shape "boom" none 7 none 0 2 "ts").2.1,
   (tryState_failure_shape "boom" none 7 none 0 2 "ts").2.2.1,
   (tryState_failure_shape "boom" none 7 none 0 2 "ts").2.2.2 (by decide)⟩

/-- C4 counterexample, refuting the claim at two points. First, the
location sentinel in the code is the Portuguese string
`'Localização não encontrada'`, not the English string
`"location not found"` the claim names: for a producer failing with no
trace, `err.location` is the former and differs from the latter. Second,
not every no-trace failure leaves `tryState` working normally: a producer
rejecting with the nullish value `null`/`undefined` — a failure carrying
no trace text — makes `tryState` itself fail with a `TypeError` instead
of returning a failure triple. -/
theorem location_sentinel_not_english :
    objLookup (errSlot (tryState (Outcome.failure ⟨some "boom", none⟩) (0 : Int)
        none 0 1 "t")) "location" =
      some (JSVal.str "Localização não encontrada") ∧
    "Localização não encontrada" ≠ "location not found" ∧
    tryStateJS (OutcomeJS.failure CaughtValue.nullish) (9 : Int) none 0 2 "ts" =
      Except.error JsError.typeError :=
  ⟨by decide, by decide, rfl⟩

/-- C4 (amended): for every producer whose no-trace failure value is not
nullish — it supports property access but its `stack` property is absent
or empty; a nullish rejection instead crashes `tryState` itself, see the
counterexample — and every context not binding `location` or `function`,
`err.location` equals the sentinel `'Localização não encontrada'` (the
code's "location not found" sentinel), `err.function` equals `"unknown"`,
and `tryState` still returns its normal failure triple (fallback first,
error and metadata present) without itself failing: in the full fallible
semantics this run of `tryStateJS` is `Except.ok` of exactly that
triple. -/
theorem tryState_no_trace_degradation {T : Type} (e : ThrownValue) (fb : T)
    (ctx : Option (List (String × JSVal))) (s p : Int) (ts : String)
    (hstk : e.stack = none ∨ e.stack = some "")
    (hl : hasKey (ctx.getD []) "location" = false)
    (hf : hasKey (ctx.getD []) "function" = false) :
    objLookup (errSlot (tryState (Outcome.failure e) fb ctx s p ts)) "location" =
      some (JSVal.str locationSentinel) ∧
    objLookup (errSlot (tryState (Outcome.failure e) fb ctx s p ts)) "function" =
      some (JSVal.str "unknown") ∧
    (tryState (Outcome.failure e) fb ctx s p ts).1 = fb ∧
    (tryState (Outcome.failure e) fb ctx s p ts).2.1.isSome = true ∧
    (tryState (Outcome.failure e) fb ctx s p ts).2.2.isSome = true ∧
    tryStateJS (OutcomeJS.failure (CaughtValue.value e)) fb ctx s p ts =
      Except.ok (tryState (Outcome.failure e) fb ctx s p ts) := by
  have hget : e.stack.getD "" = "" := by
    rcases hstk with h | h <;> rw [h] <;> rfl
  refine ⟨?_, ?_, rfl, ?_, rfl, rfl⟩
  · rw [errSlot_failure, buildErrorDetails_lookup_location e (ctx.getD []) hl, hget]
    have : relevantLineOf "" = locationSentinel := by decide
    rw [this]
  · rw [errSlot_failure, buildErrorDetails_lookup_function e (ctx.getD []) hf, hget]
    have : functionNameOf (relevantLineOf "") = "unknown" := by decide
    rw [this]
  · cases e
    rfl

/-- C4 witness: a thrown non-`Error` value (stack absent), no context. -/
theorem tryState_no_trace_degradation_witness :
    ((⟨some "boom", none⟩ : ThrownValue).stack = none ∨
      (⟨some "boom", none⟩ : ThrownValue).stack = some "") ∧
    hasKey ((none : Option (List (String × JSVal))).getD []) "location" = false ∧
    hasKey ((none : Option (List (String × JSVal))).getD []) "function" = false ∧
    (objLookup (errSlot (tryState (Outcome.failure (⟨some "boom", none⟩ : ThrownValue))
        (9 : Int) none 0 4 "ts")) "location" = some (JSVal.str locationSentinel) ∧
     objLookup (errSlot (tryState (Outcome.failure (⟨some "boom", none⟩ : ThrownValue))
        (9 : Int) none 0 4 "ts")) "function" = some (JSVal.str "unknown") ∧
     (tryState (Outcome.failure (⟨some "boom", none⟩ : ThrownValue)) (9 : Int) none 0 4 "ts").1 = 9 ∧
     (tryState (Outcome.failure (⟨some "boom", none⟩ : ThrownValue)) (9 : Int) none 0 4 "ts").2.1.isSome = true ∧
     (tryState (Outcome.failure (⟨some "boom", none⟩ : ThrownValue)) (9 : Int) none 0 4 "ts").2.2.isSome = true ∧
     tryStateJS (OutcomeJS.failure (CaughtValue.value (⟨some "boom", none⟩ : ThrownValue)))
         (9 : Int) none 0 4 "ts" =
       Except.ok (tryState (Outcome.failure (⟨some "boom", none⟩ : ThrownValue))
         (9 : Int) none 0 4 "ts")) :=
  ⟨Or.inl rfl, by decide, by decide,
   tryState_no_trace_degradation ⟨some "boom", none⟩ 9 none 0 4 "ts"
     (Or.inl rfl) (by decide) (by decide)⟩

/-- C5 counterexample: the claim says the second trace line itself becomes
`err.location`, but the code trims it first: with the trace
`"Error: boom\n    at foo (file.js:1:2)"` the second line is
`"    at foo (file.js:1:2)"` while `err.location` is the trimmed
`"at foo (file.js:1:2)"`. -/
theorem location_is_trimmed_second_line :
    objLookup (errSlot (tryState (Outcome.failure
        ⟨some "boom", some "Error: boom\n    at foo (file.js:1:2)"⟩) (0 : Int)
        none 0 1 "t")) "location" =
      some (JSVal.str "at foo (file.js:1:2)") ∧
    "at foo (file.js:1:2)" ≠ "    at foo (file.js:1:2)" :=
  ⟨by decide, by decide⟩

/-- C5 (amended): on the failure path (context not binding `location` or
`function`) the trace is split into lines and the second line (zero-based
index 1), TRIMMED of surrounding whitespace, becomes `err.location`, with
the sentinel substituted if no such line exists (or it trims to empty);
`err.function` is the `\S+` token captured by the first position in that
frame where the literal `at ` is followed by a non-whitespace character,
or `"unknown"` when the regex does not match anywhere. -/
theorem tryState_failure_trace_algorithm {T : Type} (e : ThrownValue) (fb : T)
    (ctx : Option (List (String × JSVal))) (s p : Int) (ts : String)
    (hl : hasKey (ctx.getD []) "location" = false)
    (hf : hasKey (ctx.getD []) "function" = false) :
    objLookup (errSlot (tryState (Outcome.failure e) fb ctx s p ts)) "location" =
      some (JSVal.str (relevantLineOf (e.stack.getD ""))) ∧
    objLookup (errSlot (tryState (Outcome.failure e) fb ctx s p ts)) "function" =
      some (JSVal.str (functionNameOf (relevantLineOf (e.stack.getD "")))) ∧
    (∀ l, (splitLines (e.stack.getD ""))[1]? = some l → jsTrim l ≠ "" →
      relevantLineOf (e.stack.getD "") = jsTrim l) ∧
    ((splitLines (e.stack.getD ""))[1]? = none →
      relevantLineOf (e.stack.getD "") = locationSentinel) ∧
    (scanAt (relevantLineOf (e.stack.getD "")).toList = none →
      functionNameOf (relevantLineOf (e.stack.getD "")) = "unknown") := by
  refine ⟨?_, ?_, ?_, ?_, ?_⟩
  · rw [errSlot_failure, buildErrorDetails_lookup_location e (ctx.getD []) hl]
  · rw [errSlot_failure, buildErrorDetails_lookup_function e (ctx.getD []) hf]
  · intro l hl2 hne
    unfold relevantLineOf
    rw [hl2]
    simp [hne]
  · intro hnone
    unfold relevantLineOf
    rw [hnone]
  · intro hscan
    unfold functionNameOf
    rw [hscan]

/-- C5 witness: trace with an indented second frame line; the second line
exists and trims to `"at foo (file.js:1:2)"`, which becomes
`err.location`, and the captured token is `"foo"`. -/
theorem tryState_failure_trace_algorithm_witness :
    hasKey ((none : Option (List (String × JSVal))).getD []) "location" = false ∧
    hasKey ((none : Option (List (String × JSVal))).getD []) "function" = false ∧
    (splitLines (((⟨some "boom", some "Error: boom\n    at foo (file.js:1:2)"⟩ :
        ThrownValue)).stack.getD ""))[1]? = some "    at foo (file.js:1:2)" ∧
    jsTrim "    at foo (file.js:1:2)" ≠ "" ∧
    objLookup (errSlot (tryState (Outcome.failure
        (⟨some "boom", some "Error: boom\n    at foo (file.js:1:2)"⟩ : ThrownValue))
        (3 : Int) none 0 1 "t")) "location" =
      some (JSVal.str (relevantLineOf ((⟨some "boom",
        some "Error: boom\n    at foo (file.js:1:2)"⟩ : ThrownValue).stack.getD ""))) ∧
    objLookup (errSlot (tryState (Outcome.failure
        (⟨some "boom", some "Error: boom\n    at foo (file.js:1:2)"⟩ : ThrownValue))
        (3 : Int) none 0 1 "t")) "function" =
      some (JSVal.str (functionNameOf (relevantLineOf ((⟨some "boom",
        some "Error: boom\n    at foo (file.js:1:2)"⟩ : ThrownValue).stack.getD "")))) ∧
    relevantLineOf ((⟨some "boom",
        some "Error: boom\n    at foo (file.js:1:2)"⟩ : ThrownValue).stack.getD "") =
      jsTrim "    at foo (file.js:1:2)" :=
  ⟨by decide, by decide, by decide, by decide,
   (tryState_failure_trace_algorithm
     ⟨some "boom", some "Error: boom\n    at foo (file.js:1:2)"⟩ 3 none 0 1 "t"
     (by decide) (by decide)).1,
   (tryState_failure_trace_algorithm
     ⟨some "boom", some "Error: boom\n    at foo (file.js:1:2)"⟩ 3 none 0 1 "t"
     (by decide) (by decide)).2.1,
   (tryState_failure_trace_algorithm
     ⟨some "boom", some "Error: boom\n    at foo (file.js:1:2)"⟩ 3 none 0 1 "t"
     (by decide) (by decide)).2.2.1 "    at foo (file.js:1:2)" (by decide) (by decide)⟩

/-- C8: on the failure path (context not binding `location`),
`err.location` is the second trace line with surrounding whitespace
removed, and the sentinel is substituted both when the second line is
missing and when it is empty or whitespace-only (its trim being empty). -/
theorem tryState_location_trim_sentinel {T : Type} (e : ThrownValue) (fb : T)
    (ctx : Option (List (String × JSVal))) (s p : Int) (ts : String)
    (h : hasKey (ctx.getD []) "location" = false) :
    (∀ l, (splitLines (e.stack.getD ""))[1]? = some l → jsTrim l ≠ "" →
      objLookup (errSlot (tryState (Outcome.failure e) fb ctx s p ts)) "location" =
        some (JSVal.str (jsTrim l))) ∧
    (∀ l, (splitLines (e.stack.getD ""))[1]? = some l → jsTrim l = "" →
      objLookup (errSlot (tryState (Outcome.failure e) fb ctx s p ts)) "location" =
        some (JSVal.str locationSentinel)) ∧
    ((splitLines (e.stack.getD ""))[1]? = none →
      objLookup (errSlot (tryState (Outcome.failure e) fb ctx s p ts)) "location" =
        some (JSVal.str locationSentinel)) := by
  have base : objLookup (errSlot (tryState (Outcome.failure e) fb ctx s p ts)) "location" =
      some (JSVal.str (relevantLineOf (e.stack.getD ""))) := by
    rw [errSlot_failure, buildErrorDetails_lookup_location e (ctx.getD []) h]
  refine ⟨?_, ?_, ?_⟩
  · intro l hl hne
    rw [base]
    unfold relevantLineOf
    rw [hl]
    simp [hne]
  · intro l hl hemp
    rw [base]
    unfold relevantLineOf
    rw [hl]
    simp [hemp]
  · intro hnone
    rw [base]
    unfold relevantLineOf
    rw [hnone]

/-- C8 witness: a whitespace-only second line triggers the sentinel. -/
theorem tryState_location_trim_sentinel_witness :
    hasKey ((none : Option (List (String × JSVal))).getD []) "location" = false ∧
    (splitLines ((⟨some "x", some "Error: x\n   \nmore"⟩ : ThrownValue).stack.getD ""))[1]? =
      some "   " ∧
    jsTrim "   " = "" ∧
    objLookup (errSlot (tryState (Outcome.failure
        (⟨some "x", some "Error: x\n   \nmore"⟩ : ThrownValue)) (0 : Int) none 0 1 "t"))
      "location" = some (JSVal.str locationSentinel) :=
  ⟨by decide, by decide, by decide,
   (tryState_location_trim_sentinel ⟨some "x", some "Error: x\n   \nmore"⟩ 0 none 0 1 "t"
     (by decide)).2.1 "   " (by decide) (by decide)⟩

/-- C9: on the failure path (context not binding `function`),
`err.function` is a string that is either exactly `"unknown"` or a
nonempty `\S+` capture containing no whitespace character. -/
theorem tryState_function_shape {T : Type} (e : ThrownValue) (fb : T)
    (ctx : Option (List (String × JSVal))) (s p : Int) (ts : String)
    (h : hasKey (ctx.getD []) "function" = false) :
    objLookup (errSlot (tryState (Outcome.failure e) fb ctx s p ts)) "function" =
      some (JSVal.str (functionNameOf (relevantLineOf (e.stack.getD "")))) ∧
    (functionNameOf (relevantLineOf (e.stack.getD "")) = "unknown" ∨
     (functionNameOf (relevantLineOf (e.stack.getD "")) ≠ "" ∧
      ∀ c ∈ (functionNameOf (relevantLineOf (e.stack.getD ""))).toList,
        isJsSpace c = false)) := by
  refine ⟨by rw [errSlot_failure, buildErrorDetails_lookup_function e (ctx.getD []) h], ?_⟩
  unfold functionNameOf
  cases hscan : scanAt (relevantLineOf (e.stack.getD "")).toList with
  | none => exact Or.inl rfl
  | some tok =>
    refine Or.inr ⟨?_, ?_⟩
    · intro hcontr
      have hdata : tok = [] := congrArg String.data hcontr
      exact (scanAt_some _ tok hscan).1 hdata
    · intro c hc
      have hc2 : c ∈ tok := hc
      have hall := List.all_eq_true.mp (scanAt_some _ tok hscan).2 c hc2
      simpa using hall

/-- C9 witness: the trace captures the nonempty whitespace-free token
`"foo"`. -/
theorem tryState_function_shape_witness :
    hasKey ((none : Option (List (String × JSVal))).getD []) "function" = false ∧
    objLookup (errSlot (tryState (Outcome.failure
        (⟨some "b", some "Error: b\n    at foo (f.js:1:2)"⟩ : ThrownValue)) (0 : Int)
        none 0 1 "t")) "function" =
      some (JSVal.str (functionNameOf (relevantLineOf ((⟨some "b",
        some "Error: b\n    at foo (f.js:1:2)"⟩ : ThrownValue).stack.getD "")))) ∧
    (functionNameOf (relevantLineOf ((⟨some "b",
        some "Error: b\n    at foo (f.js:1:2)"⟩ : ThrownValue).stack.getD "")) = "unknown" ∨
     (functionNameOf (relevantLineOf ((⟨some "b",
        some "Error: b\n    at foo (f.js:1:2)"⟩ : ThrownValue).stack.getD "")) ≠ "" ∧
      ∀ c ∈ (functionNameOf (relevantLineOf ((⟨some "b",
        some "Error: b\n    at foo (f.js:1:2)"⟩ : ThrownValue).stack.getD ""))).toList,
        isJsSpace c = false)) :=
  ⟨by decide,
   (tryState_function_shape ⟨some "b", some "Error: b\n    at foo (f.js:1:2)"⟩ 0 none 0 1 "t"
     (by decide)).1,
   (tryState_function_shape ⟨some "b", some "Error: b\n    at foo (f.js:1:2)"⟩ 0 none 0 1 "t"
     (by decide)).2⟩

/-- C10: on the failure path (context not binding `stack`), `err.stack`
is always present as a string: the thrown condition's full trace text
when one exists, and the empty string (not an absent field) when the
condition carries no trace. -/
theorem tryState_stack_always_string {T : Type} (e : ThrownValue) (fb : T)
    (ctx : Option (List (String × JSVal))) (s p : Int) (ts : String)
    (h : hasKey (ctx.getD []) "stack" = false) :
    objLookup (errSlot (tryState (Outcome.failure e) fb ctx s p ts)) "stack" =
      some (JSVal.str (e.stack.getD "")) ∧
    (∀ st, e.stack = some st →
      objLookup (errSlot (tryState (Outcome.failure e) fb ctx s p ts)) "stack" =
        some (JSVal.str st)) ∧
    (e.stack = none →
      objLookup (errSlot (tryState (Outcome.failure e) fb ctx s p ts)) "stack" =
        some (JSVal.str "")) := by
  have base : objLookup (errSlot (tryState (Outcome.failure e) fb ctx s p ts)) "stack" =
      some (JSVal.str (e.stack.getD "")) := by
    rw [errSlot_failure, buildErrorDetails_lookup_stack e (ctx.getD []) h]
  refine ⟨base, ?_, ?_⟩
  · intro st hst
    rw [base, hst]
    rfl
  · intro hn
    rw [base, hn]
    rfl

/-- C10 witness: a thrown value with no `stack` property still yields a
string-valued `err.stack`, namely `""`. -/
theorem tryState_stack_always_string_witness :
    hasKey ((none : Option (List (String × JSVal))).getD []) "stack" = false ∧
    (⟨none, none⟩ : ThrownValue).stack = none ∧
    objLookup (errSlot (tryState (Outcome.failure (⟨none, none⟩ : ThrownValue)) (0 : Int)
        none 0 1 "t")) "stack" = some (JSVal.str "") :=
  ⟨by decide, rfl,
   (tryState_stack_always_string ⟨none, none⟩ 0 none 0 1 "t" (by decide)).2.2 rfl⟩

end TryState
